import Mathlib

/-!
Verification of the scoring engine of the questions-assessment-site
repository (`src/utils/scoring.ts`, with the data model from
`src/types/quiz.ts`).

Modelling conventions:
- JavaScript objects used as string-keyed maps (`{ [scaleId: string]: number }`,
  `weights`, `personalityTypes`) are modelled as association lists
  `List (String × Int)` in insertion order, which is the order
  `Object.entries` enumerates; scores are seeded so that keys are unique.
- TypeScript optional fields (`weights?`, `options?`, `personalityTypes?`)
  become `Option`. `QuizOption.weights` is declared required in
  `quiz.ts`, but the engine guards `selectedOption && selectedOption.weights`
  at runtime (the JSON data is unchecked), so it too is modelled as `Option`.
- Numeric weights and scores are modelled as `Int` (the data and every claim
  use integer weights).
- A JavaScript exception is modelled by returning `none`: `calculateQuizScores`
  evaluates `question.options[answer.selectedOption]`, which throws a
  `TypeError` when `question.options` is `undefined`; every other code path
  returns normally. The `completedAt: new Date()` timestamp field is omitted
  from the result (wall-clock time, irrelevant to the scoring logic).
-/

/-- `QuizScale` from `src/types/quiz.ts`: one axis of measurement with two
polarity labels. -/
structure QuizScale where
  id : String
  name : String
  description : String
  positiveLabel : String
  negativeLabel : String
deriving DecidableEq

/-- `QuizOption` from `src/types/quiz.ts`: one choice of a multiple-choice
question. `weights` is modelled as optional because the engine checks
`selectedOption.weights` for presence before using it. -/
structure QuizOption where
  text : String
  weights : Option (List (String × Int))
deriving DecidableEq

/-- `Question` from `src/types/quiz.ts`. `kind` models the `type` field
(`likert-scale` or `multiple-choice`); `weights` is the top-level
direct-weighted mapping for Likert questions, `options` the option list for
multiple-choice questions. -/
structure Question where
  id : Int
  text : String
  kind : String
  weights : Option (List (String × Int))
  options : Option (List QuizOption)
deriving DecidableEq

/-- `Quiz` from `src/types/quiz.ts`. -/
structure Quiz where
  id : String
  title : String
  description : String
  estimatedTime : String
  questionCount : Int
  scales : List QuizScale
  personalityTypes : Option (List (String × String))
deriving DecidableEq

/-- `QuizAnswer` from `src/types/quiz.ts`: a question id and the index of the
selected option. -/
structure QuizAnswer where
  questionId : Int
  selectedOption : Int
deriving DecidableEq

/-- `QuizResult` from `src/types/quiz.ts`, minus the `completedAt` timestamp. -/
structure QuizResult where
  quizId : String
  scores : List (String × Int)
  personalityType : Option String
deriving DecidableEq

/-- The initialization loop of `calculateQuizScores`:
`quiz.scales.forEach(scale => { scores[scale.id] = 0; })`.
Assigning to a JavaScript object keeps the first insertion position of a key,
so a duplicate scale id is not inserted twice (the value is 0 either way). -/
def initStep (acc : List (String × Int)) (s : QuizScale) : List (String × Int) :=
  if acc.any (fun p => p.1 == s.id) then acc else acc ++ [(s.id, 0)]

/-- The scores object after the initialization loop. -/
def initScores (scales : List QuizScale) : List (String × Int) :=
  scales.foldl initStep []

/-- One weight entry applied to the score object:
`if (scores.hasOwnProperty(scaleId)) { scores[scaleId] += weight; }` —
an existing key is updated in place, an undeclared key is ignored. -/
def addWeight (scores : List (String × Int)) (scaleId : String) (w : Int) :
    List (String × Int) :=
  scores.map (fun p => if p.1 = scaleId then (p.1, p.2 + w) else p)

/-- `Object.entries(selectedOption.weights).forEach(([scaleId, weight]) => ...)`. -/
def applyWeights (scores : List (String × Int)) (ws : List (String × Int)) :
    List (String × Int) :=
  ws.foldl (fun acc p => addWeight acc p.1 p.2) scores

/-- JavaScript array indexing `opts[i]`: `undefined` (here `none`) when the
index is out of range (including negative indices). -/
def getOption (opts : List QuizOption) (i : Int) : Option QuizOption :=
  if i < 0 then none else opts[i.toNat]?

/-- One iteration of the `answers.forEach` loop of `calculateQuizScores`.
Returns `none` exactly where the JavaScript code throws: the question is
found but its `options` field is absent, so `question.options[answer.selectedOption]`
is a member access on `undefined` (`TypeError`). All other mismatches are
skipped silently, returning the scores unchanged. -/
def applyAnswer (questions : List Question) (scores : List (String × Int))
    (a : QuizAnswer) : Option (List (String × Int)) :=
  match questions.find? (fun q => q.id == a.questionId) with
  | none => some scores
  | some q =>
    match q.options with
    | none => none
    | some opts =>
      match getOption opts a.selectedOption with
      | none => some scores
      | some so =>
        match so.weights with
        | none => some scores
        | some ws => some (applyWeights scores ws)

/-- `scores['EI'] || 0`: the accumulated score of a dimension, defaulting to 0
when the dimension is absent (a present 0 also yields 0, as in JavaScript). -/
def lookupScore (scores : List (String × Int)) (k : String) : Int :=
  match scores.find? (fun p => p.1 == k) with
  | some p => p.2
  | none => 0

/-- `determinePersonalityType` from `src/utils/scoring.ts`: returns
`"Unknown"` unless the quiz id is `"mbti-personality"`; otherwise emits one
letter per dimension pair EI, SN, TF, JP, the first letter when the score is
strictly positive and the second otherwise. -/
def determinePersonalityType (quiz : Quiz) (scores : List (String × Int)) :
    String :=
  if quiz.id ≠ "mbti-personality" then "Unknown"
  else
    (if lookupScore scores "EI" > 0 then "E" else "I")
      ++ (if lookupScore scores "SN" > 0 then "S" else "N")
      ++ (if lookupScore scores "TF" > 0 then "T" else "F")
      ++ (if lookupScore scores "JP" > 0 then "J" else "P")

/-- `calculateQuizScores` from `src/utils/scoring.ts`. `none` models the
`TypeError` thrown when an answer resolves to a question without an `options`
array; the exception aborts the whole call, which the `Option.bind` fold
models (once `none`, always `none`). -/
def answersFold (questions : List Question)
    (acc : Option (List (String × Int))) (answers : List QuizAnswer) :
    Option (List (String × Int)) :=
  answers.foldl (fun acc a => acc.bind (fun sc => applyAnswer questions sc a)) acc

/-- `calculateQuizScores` from `src/utils/scoring.ts`: initialize the scores,
run the answer loop, then attach the personality type exactly when the
(truthy) `personalityTypes` field is present. -/
def calculateQuizScores (quiz : Quiz) (questions : List Question)
    (answers : List QuizAnswer) : Option QuizResult :=
  match answersFold questions (some (initScores quiz.scales)) answers with
  | none => none
  | some scores =>
    some ⟨quiz.id, scores,
      if quiz.personalityTypes.isSome then
        some (determinePersonalityType quiz scores)
      else none⟩

/-- The inline strength cascade of `getScaleDescription`
(`if (absScore >= 20) ... else if (absScore >= 10) ... else if (absScore >= 5)
... else 'Balanced'`), factored out as the banding function the spec calls
`band`; it is applied to `Math.abs(score)`. -/
def band (absScore : Int) : String :=
  if absScore ≥ 20 then "Strong"
  else if absScore ≥ 10 then "Moderate"
  else if absScore ≥ 5 then "Slight"
  else "Balanced"

/-- `getScaleDescription` from `src/utils/scoring.ts`. -/
def getScaleDescription (scaleId : String) (score : Int) (quiz : Quiz) :
    String :=
  match quiz.scales.find? (fun s => s.id == scaleId) with
  | none => ""
  | some scale =>
    let tendency := if score > 0 then scale.positiveLabel else scale.negativeLabel
    let strength := band |score|
    if strength = "Balanced" then
      "Balanced between " ++ scale.positiveLabel ++ " and " ++ scale.negativeLabel
    else
      strength ++ " preference for " ++ tendency

/-- `formatScoreForDisplay` from `src/utils/scoring.ts`:
`score > 0 ? '+' + score : '' + score`. -/
def formatScoreForDisplay (score : Int) : String :=
  if score > 0 then "+" ++ toString score else toString score

/-! ## Concrete fixtures -/

/-- A Likert-scale question as described by `quiz.ts` (top-level `weights`,
no `options` array), as rendered by the quiz-taking page's Likert branch. -/
def likertQ : Question := ⟨1, "I enjoy large social gatherings", "likert-scale", some [("EI", 2)], none⟩

/-- A quiz using the one built-in categorical scheme. -/
def mbtiQuiz : Quiz :=
  ⟨"mbti-personality", "MBTI Personality", "personality", "10 min", 1,
    [⟨"EI", "Extraversion-Introversion", "", "Extraversion", "Introversion"⟩],
    some [("ENFP", "The Campaigner")]⟩

/-- The two-dimension A/B quiz of the end-to-end scenario, with the four
scale labels left abstract. -/
def quizABWith (nA dA pA qA nB dB pB qB : String) : Quiz :=
  ⟨"quiz-ab", "AB Quiz", "two dimensions", "5 min", 1,
    [⟨"A", nA, dA, pA, qA⟩, ⟨"B", nB, dB, pB, qB⟩], none⟩

/-- The A/B quiz at concrete labels. -/
def quizAB : Quiz := quizABWith "A axis" "" "Aplus" "Aminus" "B axis" "" "Bplus" "Bminus"

/-- The choice-weighted question of the end-to-end scenario: two options with
weights `{A:10}` and `{B:10}`. -/
def questionAB : Question :=
  ⟨1, "pick one", "multiple-choice", none,
    some [⟨"first", some [("A", 10)]⟩, ⟨"second", some [("B", 10)]⟩]⟩

/-- A quiz whose `personalityTypes` table is present but empty. -/
def emptyTableQuiz : Quiz :=
  ⟨"career-fit", "Career Fit", "", "5 min", 0,
    [⟨"X", "X axis", "", "Xplus", "Xminus"⟩], some []⟩

/-- The answers that the accumulator skips silently: the question id is not in
the bank, or the question has an `options` array but the selected index is out
of range, or the resolved option has no `weights` mapping. (A found question
*without* an `options` array is not ignorable: that path throws.) -/
def ignorableAnswer (questions : List Question) (a : QuizAnswer) : Bool :=
  match questions.find? (fun q => q.id == a.questionId) with
  | none => true
  | some q =>
    match q.options with
    | none => false
    | some opts =>
      match getOption opts a.selectedOption with
      | none => true
      | some so => so.weights.isNone

/-- What one answer does to the scores, independent of the current scores:
`none` when the code throws, otherwise the weight list it adds (`[]` for the
silently skipped cases). -/
def answerEffect (questions : List Question) (a : QuizAnswer) :
    Option (List (String × Int)) :=
  match questions.find? (fun q => q.id == a.questionId) with
  | none => some []
  | some q =>
    match q.options with
    | none => none
    | some opts =>
      match getOption opts a.selectedOption with
      | none => some []
      | some so =>
        match so.weights with
        | none => some []
        | some ws => some ws

/-- Two questions that agree on everything except the top-level
direct-weighted `weights` field. -/
def sameExceptWeights (q q' : Question) : Prop :=
  q.id = q'.id ∧ q.text = q'.text ∧ q.kind = q'.kind ∧ q.options = q'.options

/-! ## Helper lemmas -/

/-- `addWeight` never adds or removes a key. -/
theorem addWeight_keys (scores : List (String × Int)) (k : String) (w : Int) :
    (addWeight scores k w).map Prod.fst = scores.map Prod.fst := by
  unfold addWeight
  induction scores with
  | nil => rfl
  | cons p rest ih =>
    by_cases h : p.1 = k <;> simp [h, ih]

/-- `applyWeights` never adds or removes a key. -/
theorem applyWeights_keys (ws : List (String × Int))
    (scores : List (String × Int)) :
    (applyWeights scores ws).map Prod.fst = scores.map Prod.fst := by
  induction ws generalizing scores with
  | nil => rfl
  | cons p rest ih =>
    unfold applyWeights at *
    simp only [List.foldl_cons]
    rw [ih, addWeight_keys]

/-- A successful answer step never adds or removes a key. -/
theorem applyAnswer_keys (questions : List Question)
    (scores scores' : List (String × Int)) (a : QuizAnswer)
    (h : applyAnswer questions scores a = some scores') :
    scores'.map Prod.fst = scores.map Prod.fst := by
  unfold applyAnswer at h
  split at h
  · injection h with h; subst h; rfl
  · split at h
    · cases h
    · split at h
      · injection h with h; subst h; rfl
      · split at h
        · injection h with h; subst h; rfl
        · injection h with h; subst h; exact applyWeights_keys _ _

/-- A fold started from `none` stays `none`. -/
theorem answersFold_none (questions : List Question)
    (answers : List QuizAnswer) :
    answersFold questions none answers = none := by
  induction answers with
  | nil => rfl
  | cons a rest ih => exact ih

/-- A successful answer fold never adds or removes a key. -/
theorem answersFold_keys (questions : List Question)
    (answers : List QuizAnswer) (acc scores' : List (String × Int))
    (h : answersFold questions (some acc) answers = some scores') :
    scores'.map Prod.fst = acc.map Prod.fst := by
  induction answers generalizing acc with
  | nil => injection h with h; subst h; rfl
  | cons a rest ih =>
    unfold answersFold at h
    simp only [List.foldl_cons, Option.some_bind] at h
    cases ha : applyAnswer questions acc a with
    | none =>
      rw [ha] at h
      rw [show (rest.foldl (fun acc a => acc.bind fun sc => applyAnswer questions sc a) none)
          = answersFold questions none rest from rfl, answersFold_none] at h
      cases h
    | some acc' =>
      rw [ha] at h
      exact (ih acc' h).trans (applyAnswer_keys questions acc acc' a ha)

/-- Every entry of the seeded scores object is 0. -/
theorem initScores_zero (scales : List QuizScale) :
    ∀ p ∈ initScores scales, p.2 = 0 := by
  unfold initScores
  have aux : ∀ (l : List QuizScale) (acc : List (String × Int)),
      (∀ p ∈ acc, p.2 = 0) → ∀ p ∈ l.foldl initStep acc, p.2 = 0 := by
    intro l
    induction l with
    | nil => intro acc h; exact h
    | cons s rest ih =>
      intro acc h
      apply ih
      unfold initStep
      split
      · exact h
      · intro p hp
        rcases List.mem_append.1 hp with h1 | h1
        · exact h p h1
        · simp only [List.mem_singleton] at h1
          rw [h1]
  exact aux scales [] (by intro p hp; cases hp)

/-- Keys already present survive the rest of the initialization loop. -/
theorem key_mem_foldl_initStep (scales : List QuizScale)
    (acc : List (String × Int)) (k : String) (h : k ∈ acc.map Prod.fst) :
    k ∈ (scales.foldl initStep acc).map Prod.fst := by
  induction scales generalizing acc with
  | nil => exact h
  | cons s rest ih =>
    apply ih
    unfold initStep
    split
    · exact h
    · simp only [List.map_append, List.mem_append]
      exact Or.inl h

/-- Every declared scale id is a key of the seeded scores object. -/
theorem initScores_key_mem (scales : List QuizScale) (s : QuizScale)
    (hs : s ∈ scales) :
    s.id ∈ (initScores scales).map Prod.fst := by
  unfold initScores
  have aux : ∀ (l : List QuizScale) (acc : List (String × Int)),
      s ∈ l → s.id ∈ (l.foldl initStep acc).map Prod.fst := by
    intro l
    induction l with
    | nil => intro acc h; cases h
    | cons s' rest ih =>
      intro acc h
      rcases List.mem_cons.1 h with h1 | h1
      · subst h1
        rw [List.foldl_cons]
        apply key_mem_foldl_initStep
        unfold initStep
        split
        · rename_i hany
          rcases List.any_eq_true.1 hany with ⟨p, hp, hpk⟩
          rw [← beq_iff_eq.1 hpk]
          exact List.mem_map_of_mem Prod.fst hp
        · simp only [List.map_append, List.mem_append, List.map_cons,
            List.mem_singleton]
          right
          simp
      · exact ih _ h1
  exact aux scales [] hs

/-- A key of the scores list with all-zero-or-known values: if the key is
present and every entry with that key has value `v`, `find?` returns the
entry `(k, v)`. -/
theorem find?_key_eq (scores : List (String × Int)) (k : String)
    (hmem : k ∈ scores.map Prod.fst)
    (hval : ∀ p ∈ scores, p.2 = 0) :
    scores.find? (fun p => p.1 == k) = some (k, 0) := by
  have hsome : (scores.find? (fun p => p.1 == k)).isSome := by
    rw [List.find?_isSome]
    rcases List.mem_map.1 hmem with ⟨p, hp, hpk⟩
    exact ⟨p, hp, by simp [hpk]⟩
  rcases Option.isSome_iff_exists.1 hsome with ⟨q, hq⟩
  have h1 := List.find?_some hq
  have h2 := List.mem_of_find?_eq_some hq
  have h3 : q.1 = k := beq_iff_eq.1 h1
  have h4 : q.2 = 0 := hval q h2
  rw [hq]
  rw [show q = (k, 0) from Prod.ext h3 h4]

/-- C1: the claim states `calculateQuizScores` never throws, even when an
answer references a question whose `options` field is absent. The code throws
there: with the Likert question (no `options`) and an answer for it,
`question.options[answer.selectedOption]` is a member access on `undefined`,
a `TypeError`, modelled as the `none` result. -/
theorem C1_throws_on_likert_answer :
    calculateQuizScores mbtiQuiz [likertQ] [⟨1, 3⟩] = none := by decide

/-- C2 counterexample: in the end-to-end A/B scenario the score vector is
`{A:10, B:0}` as claimed, but the description for dimension A is
"Moderate preference for Aplus", not "Strong preference for Aplus":
|10| falls in the [10,20) band. -/
theorem C2_counterexample :
    (calculateQuizScores quizAB [questionAB] [⟨1, 0⟩]).map QuizResult.scores
        = some [("A", 10), ("B", 0)]
      ∧ getScaleDescription "A" 10 quizAB = "Moderate preference for Aplus"
      ∧ getScaleDescription "A" 10 quizAB ≠ "Strong preference for Aplus" := by
  decide

/-- C2 (amended): for every choice of scale labels, the two-dimension A/B quiz
with one choice-weighted question (options weighted `{A:10}` and `{B:10}`)
and one answer selecting the first option yields scores `{A:10, B:0}`, and
the description for dimension A is "Moderate preference for" followed by A's
positive-direction label. -/
theorem C2_end_to_end (nA dA pA qA nB dB pB qB : String) :
    (calculateQuizScores (quizABWith nA dA pA qA nB dB pB qB) [questionAB]
          [⟨1, 0⟩]).map QuizResult.scores
        = some [("A", 10), ("B", 0)]
      ∧ getScaleDescription "A" 10 (quizABWith nA dA pA qA nB dB pB qB)
        = "Moderate preference for " ++ pA := by
  constructor
  · rfl
  · rfl

/-- C3: for any quiz whose id is `"mbti-personality"`, the classifier emits,
for EI, SN, TF, JP in that order, the first letter exactly when the dimension's
score is strictly positive and the second otherwise (an absent dimension reads
as 0 via `lookupScore` and takes the second letter); concretely,
`{EI:5, SN:-3, TF:0, JP:-1}` yields `"ENFP"`, and an empty score vector yields
`"INFP"`. -/
theorem C3_mbti_classifier (quiz : Quiz) (scores : List (String × Int))
    (h : quiz.id = "mbti-personality") :
    determinePersonalityType quiz scores
        = (if 0 < lookupScore scores "EI" then "E" else "I")
          ++ (if 0 < lookupScore scores "SN" then "S" else "N")
          ++ (if 0 < lookupScore scores "TF" then "T" else "F")
          ++ (if 0 < lookupScore scores "JP" then "J" else "P")
      ∧ determinePersonalityType quiz [("EI", 5), ("SN", -3), ("TF", 0), ("JP", -1)] = "ENFP"
      ∧ determinePersonalityType quiz [] = "INFP" := by
  unfold determinePersonalityType
  rw [h]
  refine ⟨by simp, by decide, by decide⟩

/-- C3 witness: the classifier theorem applied to the MBTI quiz at the claim's
concrete score vector. -/
theorem C3_witness :
    determinePersonalityType mbtiQuiz [("EI", 5), ("SN", -3), ("TF", 0), ("JP", -1)]
      = "ENFP" :=
  (C3_mbti_classifier mbtiQuiz [("EI", 5), ("SN", -3), ("TF", 0), ("JP", -1)] rfl).2.1

/-- C8: for every quiz whose id is not `"mbti-personality"` and every score
vector, the classifier returns the sentinel `"Unknown"`. -/
theorem C8_unknown_sentinel (quiz : Quiz) (scores : List (String × Int))
    (h : quiz.id ≠ "mbti-personality") :
    determinePersonalityType quiz scores = "Unknown" := by
  unfold determinePersonalityType
  simp [h]

/-- C8 witness: the sentinel theorem applied to the A/B quiz at a concrete
score vector. -/
theorem C8_witness :
    determinePersonalityType quizAB [("EI", 30), ("SN", 30), ("TF", 30), ("JP", 30)]
      = "Unknown" :=
  C8_unknown_sentinel quizAB [("EI", 30), ("SN", 30), ("TF", 30), ("JP", 30)]
    (by decide)

/-- C9: banding uses inclusive lower bounds at the fixed thresholds 5, 10, 20:
below 5 is "Balanced", [5,10) is "Slight", [10,20) is "Moderate", at least 20
is "Strong"; concretely band(3)=Balanced, band(5)=Slight, band(12)=Moderate,
band(25)=Strong. -/
theorem C9_banding (a : Int) :
    (a < 5 → band a = "Balanced")
      ∧ (5 ≤ a → a < 10 → band a = "Slight")
      ∧ (10 ≤ a → a < 20 → band a = "Moderate")
      ∧ (20 ≤ a → band a = "Strong")
      ∧ band 3 = "Balanced" ∧ band 5 = "Slight"
      ∧ band 12 = "Moderate" ∧ band 25 = "Strong" := by
  unfold band
  refine ⟨fun h => ?_, fun h h' => ?_, fun h h' => ?_, fun h => ?_,
    by decide, by decide, by decide, by decide⟩ <;>
    split_ifs <;> first | rfl | omega

/-- C9 witness: the banding theorem applied at 12, landing in the
"Moderate" band. -/
theorem C9_witness : band 12 = "Moderate" :=
  (C9_banding 12).2.2.1 (by decide) (by decide)

/-- C4: whenever `calculateQuizScores` returns a result, the score vector has
exactly the seeded key set — every declared scale id has an entry and no key
is ever added or removed — and on an empty answer list every declared
dimension maps to exactly 0. -/
theorem C4_all_dimensions_present (quiz : Quiz) (questions : List Question)
    (answers : List QuizAnswer) :
    (∀ r, calculateQuizScores quiz questions answers = some r →
        r.scores.map Prod.fst = (initScores quiz.scales).map Prod.fst
          ∧ ∀ s ∈ quiz.scales, (r.scores.find? (fun p => p.1 == s.id)).isSome)
      ∧ ∀ r, calculateQuizScores quiz questions [] = some r →
          ∀ s ∈ quiz.scales,
            r.scores.find? (fun p => p.1 == s.id) = some (s.id, 0) := by
  constructor
  · intro r hr
    unfold calculateQuizScores at hr
    split at hr
    · cases hr
    · rename_i scores hfold
      injection hr with hr
      subst hr
      have hkeys : scores.map Prod.fst = (initScores quiz.scales).map Prod.fst :=
        answersFold_keys questions answers _ scores hfold
      refine ⟨hkeys, fun s hs => ?_⟩
      rw [List.find?_isSome]
      have hmem : s.id ∈ scores.map Prod.fst := by
        rw [hkeys]; exact initScores_key_mem quiz.scales s hs
      rcases List.mem_map.1 hmem with ⟨p, hp, hpk⟩
      exact ⟨p, hp, by simp [hpk]⟩
  · intro r hr s hs
    unfold calculateQuizScores answersFold at hr
    simp only [List.foldl_nil] at hr
    injection hr with hr
    subst hr
    exact find?_key_eq _ s.id (initScores_key_mem quiz.scales s hs)
      (initScores_zero quiz.scales)

/-- C4 witness: the key-set theorem applied to the A/B quiz with an empty
answer list: dimension B has the entry 0 in the concrete result. -/
theorem C4_witness :
    (⟨"quiz-ab", [("A", 0), ("B", 0)], none⟩ : QuizResult).scores.find?
        (fun p => p.1 == "B") = some ("B", 0) :=
  (C4_all_dimensions_present quizAB [questionAB] []).2
    ⟨"quiz-ab", [("A", 0), ("B", 0)], none⟩ (by decide)
    ⟨"B", "B axis", "", "Bplus", "Bminus"⟩ (by decide)

/-- C5 counterexample: a quiz whose `personalityTypes` table is present but
empty still gets the classifier applied — the truthiness test
`if (quiz.personalityTypes)` accepts the empty object — so the result carries
the category code `"Unknown"`, where the claim says it must carry none. -/
theorem C5_counterexample :
    (calculateQuizScores emptyTableQuiz [] []).map QuizResult.personalityType
      = some (some "Unknown") := by decide

/-- C5 (amended): the classifier is applied, and the result carries a category
code, exactly when the quiz's `personalityTypes` field is present — even when
the table is empty; only a quiz with no table field at all yields no code. -/
theorem C5_classifier_iff_table_present (quiz : Quiz)
    (questions : List Question) (answers : List QuizAnswer) (r : QuizResult)
    (h : calculateQuizScores quiz questions answers = some r) :
    r.personalityType.isSome = quiz.personalityTypes.isSome
      ∧ (quiz.personalityTypes.isSome = true →
          r.personalityType = some (determinePersonalityType quiz r.scores)) := by
  unfold calculateQuizScores at h
  split at h
  · cases h
  · injection h with h
    subst h
    cases hp : quiz.personalityTypes.isSome <;> simp [hp]

/-- C5 witness: the amended theorem applied to the empty-table quiz: the
result does carry a code. -/
theorem C5_witness :
    (⟨"career-fit", [("X", 0)], some "Unknown"⟩ : QuizResult).personalityType.isSome
      = emptyTableQuiz.personalityTypes.isSome :=
  (C5_classifier_iff_table_present emptyTableQuiz [] []
    ⟨"career-fit", [("X", 0)], some "Unknown"⟩ (by decide)).1


/-- An ignorable answer leaves the scores unchanged. -/
theorem applyAnswer_of_ignorable (questions : List Question) (a : QuizAnswer)
    (scores : List (String × Int)) (h : ignorableAnswer questions a = true) :
    applyAnswer questions scores a = some scores := by
  unfold ignorableAnswer at h
  unfold applyAnswer
  split at h
  · rename_i heq1
    simp only [heq1]
  · rename_i q heq1
    split at h
    · exact Bool.noConfusion h
    · rename_i opts heq2
      split at h
      · rename_i heq3
        simp only [heq1, heq2, heq3]
      · rename_i so heq3
        rw [Option.isNone_iff_eq_none] at h
        simp only [heq1, heq2, heq3, h]

/-- One fold step over an ignorable answer is the identity. -/
theorem answerStep_of_ignorable (questions : List Question) (a : QuizAnswer)
    (acc : Option (List (String × Int)))
    (h : ignorableAnswer questions a = true) :
    acc.bind (fun sc => applyAnswer questions sc a) = acc := by
  cases acc with
  | none => rfl
  | some sc =>
    simp only [Option.some_bind]
    exact applyAnswer_of_ignorable questions a sc h

/-- C6: answers the accumulator skips (missing question id, out-of-range
option index on a question with options, resolved option without a weight
mapping) contribute nothing: the result equals the result on the answer
list with all such answers filtered out. -/
theorem C6_ignorable_answers_filtered (quiz : Quiz)
    (questions : List Question) (answers : List QuizAnswer) :
    calculateQuizScores quiz questions answers
      = calculateQuizScores quiz questions
          (answers.filter (fun a => !ignorableAnswer questions a)) := by
  unfold calculateQuizScores
  have aux : ∀ (l : List QuizAnswer) (acc : Option (List (String × Int))),
      answersFold questions acc l
        = answersFold questions acc
            (l.filter (fun a => !ignorableAnswer questions a)) := by
    intro l
    induction l with
    | nil => intro acc; rfl
    | cons a rest ih =>
      intro acc
      by_cases hi : ignorableAnswer questions a = true
      · rw [List.filter_cons,
          if_neg (show ¬((!ignorableAnswer questions a) = true) by simp [hi])]
        unfold answersFold
        simp only [List.foldl_cons]
        rw [answerStep_of_ignorable questions a acc hi]
        exact ih acc
      · rw [Bool.not_eq_true] at hi
        rw [List.filter_cons,
          if_pos (show (!ignorableAnswer questions a) = true by simp [hi])]
        unfold answersFold
        simp only [List.foldl_cons]
        exact ih _
  rw [aux answers _]

/-- Two single-weight updates commute. -/
theorem addWeight_comm (scores : List (String × Int)) (k1 k2 : String)
    (w1 w2 : Int) :
    addWeight (addWeight scores k1 w1) k2 w2
      = addWeight (addWeight scores k2 w2) k1 w1 := by
  induction scores with
  | nil => rfl
  | cons p rest ih =>
    obtain ⟨pk, pv⟩ := p
    unfold addWeight at ih ⊢
    simp only [List.map_cons, List.cons.injEq]
    refine ⟨?_, ih⟩
    by_cases h1 : pk = k1 <;> by_cases h2 : pk = k2 <;>
      simp [h1, h2] <;> split_ifs <;>
      simp_all [Prod.mk.injEq] <;> omega

/-- A weight-list application commutes past a single update. -/
theorem applyWeights_addWeight (ws : List (String × Int))
    (scores : List (String × Int)) (k : String) (w : Int) :
    applyWeights (addWeight scores k w) ws
      = addWeight (applyWeights scores ws) k w := by
  induction ws generalizing scores with
  | nil => rfl
  | cons p rest ih =>
    unfold applyWeights at *
    simp only [List.foldl_cons]
    rw [← addWeight_comm]
    exact ih _

/-- Two weight-list applications commute. -/
theorem applyWeights_comm (ws1 ws2 : List (String × Int))
    (scores : List (String × Int)) :
    applyWeights (applyWeights scores ws1) ws2
      = applyWeights (applyWeights scores ws2) ws1 := by
  induction ws1 generalizing scores with
  | nil => rfl
  | cons p rest ih =>
    have hcons : ∀ sc : List (String × Int),
        applyWeights sc (p :: rest) = applyWeights (addWeight sc p.1 p.2) rest := by
      intro sc
      unfold applyWeights
      rw [List.foldl_cons]
    rw [hcons, ih, hcons, applyWeights_addWeight, applyWeights_addWeight]

/-- An answer's effect on the scores factors through `answerEffect`. -/
theorem applyAnswer_eq_effect (questions : List Question) (a : QuizAnswer)
    (scores : List (String × Int)) :
    applyAnswer questions scores a
      = (answerEffect questions a).map (applyWeights scores) := by
  unfold applyAnswer answerEffect
  cases hf : questions.find? (fun q => q.id == a.questionId) with
  | none => rfl
  | some q =>
    cases ho : q.options with
    | none => simp only [ho, Option.map_none']
    | some opts =>
      cases hg : getOption opts a.selectedOption with
      | none => simp only [ho, hg, Option.map_some']; rfl
      | some so =>
        cases hw : so.weights with
        | none => simp only [ho, hg, hw, Option.map_some']; rfl
        | some ws => simp only [ho, hg, hw, Option.map_some']

/-- Two answer fold steps commute. -/
theorem answerStep_comm (questions : List Question) (x y : QuizAnswer)
    (acc : Option (List (String × Int))) :
    (acc.bind (fun sc => applyAnswer questions sc x)).bind
        (fun sc => applyAnswer questions sc y)
      = (acc.bind (fun sc => applyAnswer questions sc y)).bind
          (fun sc => applyAnswer questions sc x) := by
  cases acc with
  | none => rfl
  | some sc =>
    simp only [Option.some_bind]
    cases hex : answerEffect questions x with
    | none =>
      simp [applyAnswer_eq_effect, hex]
    | some wx =>
      cases hey : answerEffect questions y with
      | none => simp [applyAnswer_eq_effect, hex, hey]
      | some wy =>
        simp [applyAnswer_eq_effect, hex, hey]
        exact applyWeights_comm wx wy sc

/-- C7: score accumulation is order-independent — permuting the answer list
leaves the whole result of `calculateQuizScores` unchanged. -/
theorem C7_order_independent (quiz : Quiz) (questions : List Question)
    (answers answers' : List QuizAnswer) (h : answers.Perm answers') :
    calculateQuizScores quiz questions answers
      = calculateQuizScores quiz questions answers' := by
  unfold calculateQuizScores answersFold
  rw [h.foldl_eq' (fun x _ y _ z => answerStep_comm questions x y z) _]

/-- C7 witness: the permutation theorem applied to the A/B quiz with the two
concrete answers swapped. -/
theorem C7_witness :
    calculateQuizScores quizAB [questionAB] [⟨1, 0⟩, ⟨1, 1⟩]
      = calculateQuizScores quizAB [questionAB] [⟨1, 1⟩, ⟨1, 0⟩] :=
  C7_order_independent quizAB [questionAB] [⟨1, 0⟩, ⟨1, 1⟩] [⟨1, 1⟩, ⟨1, 0⟩]
    (List.Perm.swap _ _ _)

/-- `find?` by id returns related results on question banks related entrywise
by `sameExceptWeights`. -/
theorem find?_sameExceptWeights (questions questions' : List Question)
    (n : Int) (h : List.Forall₂ sameExceptWeights questions questions') :
    (questions.find? (fun q => q.id == n) = none
        ∧ questions'.find? (fun q => q.id == n) = none)
      ∨ ∃ q q', questions.find? (fun q => q.id == n) = some q
          ∧ questions'.find? (fun q => q.id == n) = some q'
          ∧ sameExceptWeights q q' := by
  induction h with
  | nil => exact Or.inl ⟨rfl, rfl⟩
  | @cons a b l1 l2 hab hrest ih =>
    by_cases hid : (a.id == n) = true
    · have hid' : (b.id == n) = true := by
        rw [← hab.1]; exact hid
      exact Or.inr ⟨a, b, List.find?_cons_of_pos _ hid,
        List.find?_cons_of_pos _ hid', hab⟩
    · have hid' : ¬(b.id == n) = true := by
        rw [← hab.1]; exact hid
      have e1 : List.find? (fun q => q.id == n) (a :: l1)
          = List.find? (fun q => q.id == n) l1 :=
        List.find?_cons_of_neg _ hid
      have e2 : List.find? (fun q => q.id == n) (b :: l2)
          = List.find? (fun q => q.id == n) l2 :=
        List.find?_cons_of_neg _ hid'
      rw [e1, e2]
      exact ih

/-- An answer acts identically on two question banks that differ only in the
top-level `weights` fields. -/
theorem applyAnswer_sameExceptWeights (questions questions' : List Question)
    (h : List.Forall₂ sameExceptWeights questions questions')
    (scores : List (String × Int)) (a : QuizAnswer) :
    applyAnswer questions scores a = applyAnswer questions' scores a := by
  unfold applyAnswer
  rcases find?_sameExceptWeights questions questions' a.questionId h with
    ⟨h1, h2⟩ | ⟨q, q', h1, h2, hsame⟩
  · rw [h1, h2]
  · rw [h1, h2]
    simp only [hsame.2.2.2]

/-- C10: `calculateQuizScores` never consults a question's top-level
direct-weighted `weights` field — two question banks whose questions agree on
id, text, type and options (differing only in `weights`) produce identical
results for every quiz and answer list. -/
theorem C10_top_level_weights_ignored (quiz : Quiz)
    (questions questions' : List Question) (answers : List QuizAnswer)
    (h : List.Forall₂ sameExceptWeights questions questions') :
    calculateQuizScores quiz questions answers
      = calculateQuizScores quiz questions' answers := by
  unfold calculateQuizScores
  have aux : ∀ (l : List QuizAnswer) (acc : Option (List (String × Int))),
      answersFold questions acc l = answersFold questions' acc l := by
    intro l
    induction l with
    | nil => intro acc; rfl
    | cons a rest ih =>
      intro acc
      unfold answersFold
      simp only [List.foldl_cons]
      rw [show (acc.bind fun sc => applyAnswer questions sc a)
            = acc.bind fun sc => applyAnswer questions' sc a by
          cases acc with
          | none => rfl
          | some sc =>
            simp only [Option.some_bind]
            exact applyAnswer_sameExceptWeights questions questions' h sc a]
      exact ih _
  rw [aux answers _]

/-- C10 witness: the theorem applied to a one-question bank against the same
bank with the top-level `weights` field replaced, at a concrete answer. -/
theorem C10_witness :
    calculateQuizScores quizAB [questionAB] [⟨1, 0⟩]
      = calculateQuizScores quizAB
          [⟨1, "pick one", "multiple-choice", some [("A", 999)],
            some [⟨"first", some [("A", 10)]⟩, ⟨"second", some [("B", 10)]⟩]⟩]
          [⟨1, 0⟩] :=
  C10_top_level_weights_ignored quizAB [questionAB] _ [⟨1, 0⟩]
    (List.Forall₂.cons ⟨rfl, rfl, rfl, rfl⟩ List.Forall₂.nil)
